import Mathlib

/-!
Verification of the URL-shortening service in src/examples/shorten.rs.

The service keeps one Postgres table `urls (id CHAR(6) PRIMARY KEY, url TEXT
NOT NULL UNIQUE)`.  We embed the table as a list of rows in insertion order,
the SQL statements as functions on that list, the sqlx error values as an
inductive type, and the two axum handlers as functions whose environmental
inputs (the generated identifiers, transport failures) are explicit
arguments.
-/

namespace Shorten

/-- A row of the `urls` table: mirrors struct UrlRecord (shorten.rs lines
30-36) and the schema created in AppState::try_new (lines 143-152). -/
structure UrlRecord where
  id : String
  url : String
deriving Repr, DecidableEq

/-- The `urls` table: rows in insertion order.  AppState::try_new creates it
empty when it does not exist yet. -/
abbrev Store := List UrlRecord

/-- Model of sqlx::Error as far as the program inspects it: a database error
carrying an optional constraint name (the Database variant, whose
err.constraint() the From impl reads), the RowNotFound error returned by
fetch_one on an empty result, and any other failure with its display text. -/
inductive SqlxError where
  | Database (constraint : Option String) (msg : String)
  | RowNotFound
  | OtherFailure (msg : String)
deriving Repr, DecidableEq

/-- The constraint() accessor of sqlx database errors: only the Database
variant carries a constraint name. -/
def SqlxError.constraintName : SqlxError → Option String
  | .Database c _ => c
  | .RowNotFound => none
  | .OtherFailure _ => none

/-- The Display rendering (to_string) of a sqlx error, as far as the
program uses it when it wraps the error message. -/
def SqlxError.display : SqlxError → String
  | .Database _ m => m
  | .RowNotFound => "no rows returned by a query that expected to return at least one row"
  | .OtherFailure m => m

/-- Mirrors enum ShortenError (shorten.rs lines 38-51). -/
inductive ShortenError where
  | BindException (msg : String)
  | ClientConnectionFailure (msg : String)
  | PrimaryKeyConflict (msg : String)
  | DbOperationException (msg : String)
  | NotFound
deriving Repr, DecidableEq

/-- Mirrors const LISTEN_ADDR (shorten.rs line 53). -/
def LISTEN_ADDR : String := "127.0.0.1:9876"

/-- Mirrors const MAX_RETRY_TIMES (shorten.rs line 54). -/
def MAX_RETRY_TIMES : Nat := 10

/-- Mirrors impl From sqlx::Error for ShortenError (shorten.rs lines
195-204): a database error whose constraint is urls_pkey becomes
PrimaryKeyConflict, everything else becomes DbOperationException carrying
the error text. -/
def ShortenError.fromSqlx : SqlxError → ShortenError
  | .Database c m =>
      if c == some "urls_pkey" then
        .PrimaryKeyConflict "urls_pkey constraint violation"
      else .DbOperationException m
  | .RowNotFound => .DbOperationException SqlxError.RowNotFound.display
  | .OtherFailure m => .DbOperationException m

/-- The status half of impl IntoResponse for ShortenError (shorten.rs lines
214-220), as the numeric HTTP status. -/
def ShortenError.status : ShortenError → Nat
  | .BindException _ => 500
  | .ClientConnectionFailure _ => 500
  | .PrimaryKeyConflict _ => 409
  | .DbOperationException _ => 500
  | .NotFound => 404

/-- The machine-readable code half of impl IntoResponse for ShortenError
(shorten.rs lines 222-228). -/
def ShortenError.code : ShortenError → String
  | .BindException _ => "BIND_ERROR"
  | .ClientConnectionFailure _ => "CLIENT_CONNECTION_ERROR"
  | .PrimaryKeyConflict _ => "PRIMARY_KEY_CONFLICT"
  | .DbOperationException _ => "DB_OPERATION_ERROR"
  | .NotFound => "NOT_FOUND"

/-- The SQL statement run by AppState::shorten (shorten.rs lines 161-169):
INSERT INTO urls (id, url) VALUES (id, url) ON CONFLICT(url) DO UPDATE SET
url=excluded.url RETURNING id.  If a row with this url exists, the conflict
action updates it to the identical value and returns the id of the existing row;
otherwise the insert must satisfy the primary key, so a duplicate id raises
a database error naming the urls_pkey constraint; otherwise the row is
inserted and its id returned. -/
def upsertByUrl (s : Store) (id url : String) : Except SqlxError (String × Store) :=
  match s.find? (fun r => r.url == url) with
  | some r => .ok (r.id, s)
  | none =>
      if s.any (fun r => r.id == id) then
        .error (.Database (some "urls_pkey")
          "duplicate key value violates unique constraint urls_pkey")
      else .ok (id, s ++ [⟨id, url⟩])

/-- Mirrors AppState::shorten (shorten.rs lines 157-172).  The identifier
produced by nanoid is passed in explicitly as genId; the question-mark
operator converts the raw sqlx error through ShortenError.fromSqlx. -/
def AppState.shorten (s : Store) (genId url : String) :
    Except ShortenError (String × Store) :=
  match upsertByUrl s genId url with
  | .ok r => .ok r
  | .error e => .error (ShortenError.fromSqlx e)

/-- Mirrors AppState::get_url (shorten.rs lines 174-181): a single-key
select; fetch_one yields RowNotFound when no row has this id. -/
def AppState.get_url (s : Store) (id : String) : Except SqlxError String :=
  match s.find? (fun r => r.id == id) with
  | some r => .ok r.url
  | none => .error .RowNotFound

/-- The lookup step of the redirect handler (shorten.rs lines 128-131):
any get_url error is mapped to ShortenError.NotFound. -/
def redirectWorkflow (s : Store) (id : String) : Except ShortenError String :=
  match AppState.get_url s id with
  | .ok url => .ok url
  | .error _ => .error ShortenError.NotFound

/-- Validity of one byte of an http HeaderValue: visible or obs-text byte
(at least 32 and not 127) or horizontal tab.  url.parse() at shorten.rs
line 134 fails exactly when some byte violates this. -/
def isValidHeaderByte (b : Nat) : Bool :=
  (32 ≤ b && b != 127) || b == 9

/-- Validity of a string as an http HeaderValue.  Characters at code point
128 and above are encoded in UTF-8 as bytes of value at least 128, which
are always accepted, so only ASCII characters are constrained. -/
def isValidHeaderValue (url : String) : Bool :=
  url.toList.all (fun c => 128 ≤ c.toNat || isValidHeaderByte c.toNat)

/-- Outcome of the redirect handler: a redirect response carrying the
Location value, an error response rendered from a ShortenError, or a panic
from the unwrap at shorten.rs line 134. -/
inductive RedirectResult where
  | response (status : Nat) (location : String)
  | errorResponse (e : ShortenError)
  | panicked
deriving Repr, DecidableEq

/-- Mirrors the redirect handler (shorten.rs lines 124-137).  envFailure
injects a transport or storage failure of the store round-trip, which the
handler cannot distinguish from a missing row because of map_err.  On a
successful lookup the URL is parsed into the Location header: an invalid
header value panics through unwrap, otherwise the handler answers 308. -/
def redirect (s : Store) (id : String) (envFailure : Option SqlxError) :
    RedirectResult :=
  match (match envFailure with
         | some e => Except.error e
         | none => AppState.get_url s id) with
  | .error _ => .errorResponse ShortenError.NotFound
  | .ok url =>
      if isValidHeaderValue url then .response 308 url else .panicked

/-- One attempt of the shorten handler loop as seen from the handler:
either the round-trip reaches the store and executes the upsert with the
identifier nanoid produced for this attempt, or it fails in the environment
with a raw sqlx error. -/
inductive AttemptInput where
  | gen (id : String)
  | envFailure (e : SqlxError)
deriving Repr, DecidableEq

/-- The result of one state.shorten call (shorten.rs line 99) for a given
attempt input. -/
def attemptResult (s : Store) (url : String) : AttemptInput → Except ShortenError (String × Store)
  | .gen id => AppState.shorten s id url
  | .envFailure e => .error (ShortenError.fromSqlx e)

/-- Outcome of the shorten handler: the 201 response with the body URL and
the store after the insert, or a bare error status (the handler returns
StatusCode directly on failure), with the store at that moment. -/
inductive HandlerResult where
  | success (status : Nat) (bodyUrl : String) (db : Store)
  | failure (status : Nat) (db : Store)
deriving Repr, DecidableEq

/-- Mirrors the loop of the shorten handler (shorten.rs lines 91-115):
starting from retry_cnt, give up with 422 once retry_cnt reaches
MAX_RETRY_TIMES, otherwise run the next attempt; a PrimaryKeyConflict
increments the counter and retries, any other error returns 422 at once,
and a fresh identifier leaves the loop.  After the loop the handler builds
the 201 body (lines 117-121).  none models a run that would need more
attempt inputs than were supplied. -/
def shortenLoop (s : Store) (url : String) :
    Nat → List AttemptInput → Option HandlerResult
  | retryCnt, [] =>
      if MAX_RETRY_TIMES ≤ retryCnt then some (.failure 422 s) else none
  | retryCnt, a :: rest =>
      if MAX_RETRY_TIMES ≤ retryCnt then some (.failure 422 s)
      else
        match attemptResult s url a with
        | .ok (id, s1) =>
            some (.success 201 ("http://" ++ LISTEN_ADDR ++ "/" ++ id) s1)
        | .error (.PrimaryKeyConflict _) => shortenLoop s url (retryCnt + 1) rest
        | .error _ => some (.failure 422 s)

/-- Mirrors the shorten handler (shorten.rs lines 82-122): the loop starts
with retry_cnt = 0. -/
def shorten (s : Store) (url : String) (attempts : List AttemptInput) :
    Option HandlerResult :=
  shortenLoop s url 0 attempts

/-- The store invariant: no two rows share an id and no two rows share a
url (the PRIMARY KEY and UNIQUE constraints of the schema, shorten.rs
lines 145-148). -/
def StoreWf (s : Store) : Prop :=
  (s.map UrlRecord.id).Nodup ∧ (s.map UrlRecord.url).Nodup

/-- One shortening operation applied to the store, for sequencing: op.1 is
the generated identifier, op.2 the submitted url; on error the store is
unchanged (the failed insert leaves no row). -/
def shortenStep (s : Store) (op : String × String) : Store :=
  match AppState.shorten s op.1 op.2 with
  | .ok (_, s1) => s1
  | .error _ => s

/-- A sequence of shortening operations applied to the store. -/
def runShortens (s : Store) (ops : List (String × String)) : Store :=
  ops.foldl shortenStep s

/-- The character at position n of the 62-symbol alphanumeric alphabet
0-9, A-Z, a-z. -/
def alphanumChar (n : Fin 62) : Char :=
  if n.val < 10 then Char.ofNat (48 + n.val)
  else if n.val < 36 then Char.ofNat (65 + (n.val - 10))
  else Char.ofNat (97 + (n.val - 36))

/-- Modelled from the spec: the identifier generator (nanoid::nanoid!(6) at
shorten.rs line 158, whose implementation is not part of this repository).
Per the spec it produces a fixed-length (6 character) random identifier
drawn from an alphanumeric alphabet, with no persisted or in-memory
counter: each call is a pure function of the randomness r sampled for that
call alone. -/
def generate (r : Fin 6 → Fin 62) : String :=
  String.mk ((List.finRange 6).map (fun i => alphanumChar (r i)))

/-- When a row with the submitted url exists, the upsert returns its id and
leaves the store unchanged. -/
theorem shorten_reuse {s : Store} {u : String} {r : UrlRecord} (g : String)
    (hf : s.find? (fun x => x.url == u) = some r) :
    AppState.shorten s g u = .ok (r.id, s) := by
  simp [AppState.shorten, upsertByUrl, hf]

/-- When the url is new and the generated id is free, the upsert appends the
row and returns the generated id. -/
theorem shorten_insert {s : Store} {u g : String}
    (hf : s.find? (fun x => x.url == u) = none)
    (ha : s.any (fun x => x.id == g) = false) :
    AppState.shorten s g u = .ok (g, s ++ [⟨g, u⟩]) := by
  simp [AppState.shorten, upsertByUrl, hf, ha]

/-- When the url is new but the generated id is taken, the call fails with
the classified primary key conflict. -/
theorem shorten_conflict {s : Store} {u g : String}
    (hf : s.find? (fun x => x.url == u) = none)
    (ha : s.any (fun x => x.id == g) = true) :
    AppState.shorten s g u =
      .error (.PrimaryKeyConflict "urls_pkey constraint violation") := by
  simp [AppState.shorten, upsertByUrl, hf, ha, ShortenError.fromSqlx]

/-- Inversion for a successful AppState.shorten call: either the url was
present and the id of its row is returned with the store unchanged, or the url
was absent, the generated id was free, and the row was appended. -/
theorem shorten_ok_cases {s : Store} {g u id : String} {s1 : Store}
    (h : AppState.shorten s g u = .ok (id, s1)) :
    (∃ r, s.find? (fun x => x.url == u) = some r ∧ id = r.id ∧ s1 = s) ∨
      (s.find? (fun x => x.url == u) = none ∧
        s.any (fun x => x.id == g) = false ∧ id = g ∧ s1 = s ++ [⟨g, u⟩]) := by
  rcases hf : s.find? (fun x => x.url == u) with _ | r
  · rcases ha : s.any (fun x => x.id == g)
    · rw [shorten_insert hf ha] at h
      simp only [Except.ok.injEq, Prod.mk.injEq] at h
      exact .inr ⟨hf, rfl, h.1.symm, h.2.symm⟩
    · rw [shorten_conflict hf ha] at h
      cases h
  · rw [shorten_reuse g hf] at h
    simp only [Except.ok.injEq, Prod.mk.injEq] at h
    exact .inl ⟨r, hf, h.1.symm, h.2.symm⟩

/-- A successful AppState.shorten call leaves a row in the resulting store
holding the returned id and the submitted url. -/
theorem shorten_ok_mem {s : Store} {g u id : String} {s1 : Store}
    (h : AppState.shorten s g u = .ok (id, s1)) :
    ∃ r, r ∈ s1 ∧ r.id = id ∧ r.url = u := by
  rcases shorten_ok_cases h with ⟨r, hf, hid, hs⟩ | ⟨hf, ha, hid, hs⟩
  · subst hid hs
    refine ⟨r, List.mem_of_find?_eq_some hf, rfl, ?_⟩
    simpa [beq_iff_eq] using List.find?_some hf
  · subst hs
    exact ⟨⟨g, u⟩, by simp, hid.symm, rfl⟩

/-- A successful AppState.shorten call preserves the uniqueness constraints
of the schema. -/
theorem StoreWf.shorten_preserve {s : Store} (hwf : StoreWf s)
    {g u id : String} {s1 : Store}
    (h : AppState.shorten s g u = .ok (id, s1)) : StoreWf s1 := by
  rcases shorten_ok_cases h with ⟨r, _, _, hs⟩ | ⟨hf, ha, _, hs⟩
  · subst hs; exact hwf
  · subst hs
    obtain ⟨hids, hurls⟩ := hwf
    have hg : ∀ x ∈ s, ¬x.id = g := by
      intro x hx
      simpa [beq_iff_eq] using List.any_eq_false.mp ha x hx
    have hu : ∀ x ∈ s, ¬x.url = u := by
      intro x hx
      simpa [beq_iff_eq] using List.find?_eq_none.mp hf x hx
    constructor
    · simp only [List.map_append, List.map_cons, List.map_nil,
        List.nodup_append, List.disjoint_singleton]
      refine ⟨hids, by simp, ?_⟩
      intro hmem
      rcases List.mem_map.mp hmem with ⟨x, hx, hxid⟩
      exact hg x hx hxid
    · simp only [List.map_append, List.map_cons, List.map_nil,
        List.nodup_append, List.disjoint_singleton]
      refine ⟨hurls, by simp, ?_⟩
      intro hmem
      rcases List.mem_map.mp hmem with ⟨x, hx, hxu⟩
      exact hu x hx hxu

/-- One shortening operation preserves the store invariant, whether it
succeeds or fails. -/
theorem StoreWf.step_preserve {s : Store} (hwf : StoreWf s)
    (op : String × String) : StoreWf (shortenStep s op) := by
  unfold shortenStep
  rcases hstep : AppState.shorten s op.1 op.2 with e | ⟨id, s1⟩
  · exact hwf
  · exact hwf.shorten_preserve hstep

/-- Claim C1: for every URL u, shortening u and then resolving the returned
identifier yields u back.  On a store satisfying the schema constraints, a
successful AppState.shorten of u followed by the redirect lookup of the
returned identifier answers exactly u. -/
theorem redirect_after_shorten (s : Store) (g u id : String) (s1 : Store)
    (hwf : StoreWf s) (h : AppState.shorten s g u = .ok (id, s1)) :
    redirectWorkflow s1 id = .ok u := by
  have hwf1 := hwf.shorten_preserve h
  obtain ⟨r, hr, hrid, hru⟩ := shorten_ok_mem h
  rcases hfind : s1.find? (fun x => x.id == id) with _ | r2
  · exfalso
    have := List.find?_eq_none.mp hfind r hr
    simp [beq_iff_eq, hrid] at this
  · have hmem2 := List.mem_of_find?_eq_some hfind
    have hid2 : r2.id = id := by simpa [beq_iff_eq] using List.find?_some hfind
    have heq : r2 = r :=
      List.inj_on_of_nodup_map hwf1.1 hmem2 hr (by rw [hid2, hrid])
    simp [redirectWorkflow, AppState.get_url, hfind, heq, hru]

/-- Witness for redirect_after_shorten: shortening a concrete URL into the
empty store and resolving the returned identifier yields it back. -/
theorem redirect_after_shorten_witness :
    redirectWorkflow [⟨"abc123", "https://example.com"⟩] "abc123"
      = .ok "https://example.com" :=
  redirect_after_shorten [] "abc123" "https://example.com" "abc123"
    [⟨"abc123", "https://example.com"⟩] (by simp [StoreWf]) rfl

/-- Claim C2: shortening is idempotent per URL.  After a successful
AppState.shorten of u, a second call for u returns the same identifier with
no error and no retry, whatever identifier the generator proposes, and the
store keeps its single record for u. -/
theorem shorten_idempotent (s : Store) (g1 g2 u id1 : String) (s1 : Store)
    (h : AppState.shorten s g1 u = .ok (id1, s1)) :
    AppState.shorten s1 g2 u = .ok (id1, s1) := by
  rcases shorten_ok_cases h with ⟨r, hf, hid, hs⟩ | ⟨hf, _, hid, hs⟩
  · subst hid hs
    exact shorten_reuse g2 hf
  · subst hs
    have hfind : (s ++ [(⟨g1, u⟩ : UrlRecord)]).find? (fun x => x.url == u)
        = some ⟨g1, u⟩ := by
      rw [List.find?_append, hf]
      simp
    have h2 := shorten_reuse g2 hfind
    rw [hid]
    exact h2

/-- Witness for shorten_idempotent: resubmitting a stored URL with a
different generated identifier returns the original identifier and leaves
the store unchanged. -/
theorem shorten_idempotent_witness :
    AppState.shorten [⟨"abc123", "https://example.com"⟩] "zzzzzz"
        "https://example.com"
      = .ok ("abc123", [⟨"abc123", "https://example.com"⟩]) :=
  shorten_idempotent [] "abc123" "zzzzzz" "https://example.com" "abc123"
    [⟨"abc123", "https://example.com"⟩] rfl

/-- Claim C3: the record set stays a bijection between identifiers and
URLs: any sequence of shorten operations preserves the uniqueness of both
columns, and successful shortenings of two distinct URLs return distinct
identifiers. -/
theorem store_bijection :
    (∀ (s : Store) (ops : List (String × String)),
        StoreWf s → StoreWf (runShortens s ops))
    ∧ (∀ (s : Store) (g1 g2 u1 u2 id1 id2 : String) (s1 s2 : Store),
        StoreWf s → u1 ≠ u2 →
        AppState.shorten s g1 u1 = .ok (id1, s1) →
        AppState.shorten s1 g2 u2 = .ok (id2, s2) → id1 ≠ id2) := by
  constructor
  · intro s ops hwf
    induction ops generalizing s with
    | nil => exact hwf
    | cons op ops ih =>
      rw [runShortens, List.foldl_cons]
      exact ih _ (hwf.step_preserve op)
  · intro s g1 g2 u1 u2 id1 id2 s1 s2 hwf hne h1 h2 heq
    have hwf1 := hwf.shorten_preserve h1
    obtain ⟨r1, hr1, hr1id, hr1url⟩ := shorten_ok_mem h1
    rcases shorten_ok_cases h2 with ⟨r2, hf2, hid2, _⟩ | ⟨_, ha2, hid2, _⟩
    · have hmem2 := List.mem_of_find?_eq_some hf2
      have hr2url : r2.url = u2 := by
        simpa [beq_iff_eq] using List.find?_some hf2
      have hrr : r1 = r2 :=
        List.inj_on_of_nodup_map hwf1.1 hr1 hmem2 (by rw [hr1id, ← hid2, heq])
      exact hne (by rw [← hr1url, hrr, hr2url])
    · have hfree := List.any_eq_false.mp ha2 r1 hr1
      simp only [beq_iff_eq] at hfree
      exact hfree (by rw [hr1id, heq, hid2])

/-- Witness for store_bijection: a one-operation run from the empty store
is well formed, and two concrete distinct URLs receive distinct
identifiers. -/
theorem store_bijection_witness :
    StoreWf (runShortens [] [("abc123", "https://a.com")])
    ∧ ("abc123" : String) ≠ "zzzzzz" :=
  ⟨store_bijection.1 [] [("abc123", "https://a.com")] (by simp [StoreWf]),
   store_bijection.2 [] "abc123" "zzzzzz" "https://a.com" "https://b.com"
     "abc123" "zzzzzz" [⟨"abc123", "https://a.com"⟩]
     [⟨"abc123", "https://a.com"⟩, ⟨"zzzzzz", "https://b.com"⟩]
     (by simp [StoreWf]) (by decide) rfl rfl⟩

/-- Once the retry counter has reached the bound, the handler loop answers
422 at once, whatever attempts remain. -/
theorem shortenLoop_exhausted (s : Store) (u : String) (cnt : Nat)
    (attempts : List AttemptInput) (h : MAX_RETRY_TIMES ≤ cnt) :
    shortenLoop s u cnt attempts = some (.failure 422 s) := by
  cases attempts <;> simp [shortenLoop, h]

/-- The handler loop consumes colliding generated identifiers one per
iteration: each one only increments the counter and leaves the store
untouched. -/
theorem shortenLoop_conflicts (s : Store) (u : String)
    (hu : s.find? (fun r => r.url == u) = none) (gs : List String) :
    ∀ (cnt : Nat) (rest : List AttemptInput),
      (∀ x ∈ gs, s.any (fun r => r.id == x) = true) →
      shortenLoop s u cnt (gs.map AttemptInput.gen ++ rest)
        = shortenLoop s u (cnt + gs.length) rest := by
  induction gs with
  | nil => intro cnt rest _; simp
  | cons g gs ih =>
    intro cnt rest hcol
    have hconf := shorten_conflict hu (hcol g (by simp))
    by_cases hc : MAX_RETRY_TIMES ≤ cnt
    · rw [List.map_cons, List.cons_append, shortenLoop_exhausted s u cnt _ hc,
        shortenLoop_exhausted s u _ rest (le_trans hc (Nat.le_add_right _ _))]
    · simp only [List.map_cons, List.cons_append, List.length_cons,
        shortenLoop, attemptResult, hconf, if_neg hc, List.append_eq]
      rw [ih (cnt + 1) rest (fun x hx => hcol x (List.mem_cons_of_mem _ hx))]
      have harith : cnt + 1 + gs.length = cnt + (gs.length + 1) := by omega
      rw [harith]

/-- Claim C4: the shortening workflow makes at most MAX_RETRY_TIMES (10)
attempts and retries only on identifier conflicts.  Up to 9 colliding
generated identifiers followed by a free one are invisible to the caller:
the handler answers 201 and appends the new record.  Ten colliding
identifiers end the request deterministically with 422 and leave the store
exactly as it was, no record partially inserted. -/
theorem shorten_retry_policy (s : Store) (u : String)
    (hu : s.find? (fun r => r.url == u) = none) :
    (∀ (gs : List String) (g : String) (rest : List AttemptInput),
        gs.length ≤ 9 →
        (∀ x ∈ gs, s.any (fun r => r.id == x) = true) →
        s.any (fun r => r.id == g) = false →
        shorten s u (gs.map AttemptInput.gen ++ AttemptInput.gen g :: rest)
          = some (.success 201 ("http://" ++ LISTEN_ADDR ++ "/" ++ g)
              (s ++ [⟨g, u⟩])))
    ∧ (∀ (gs : List String) (rest : List AttemptInput),
        gs.length = 10 →
        (∀ x ∈ gs, s.any (fun r => r.id == x) = true) →
        shorten s u (gs.map AttemptInput.gen ++ rest)
          = some (.failure 422 s)) := by
  constructor
  · intro gs g rest hlen hcol hfree
    rw [shorten, shortenLoop_conflicts s u hu gs 0 _ hcol]
    have hins := shorten_insert hu hfree
    have hlt : ¬MAX_RETRY_TIMES ≤ 0 + gs.length := by
      simp only [MAX_RETRY_TIMES]
      omega
    simp only [shortenLoop, attemptResult, hins, if_neg hlt]
  · intro gs rest hlen hcol
    rw [shorten, shortenLoop_conflicts s u hu gs 0 rest hcol]
    exact shortenLoop_exhausted s u _ rest (by simp [MAX_RETRY_TIMES, hlen])

/-- Witness for shorten_retry_policy: against a store holding the only
identifier x, nine collisions on x followed by the free identifier y
succeed with 201, while ten collisions on x fail with 422 and change
nothing. -/
theorem shorten_retry_policy_witness :
    shorten [⟨"x", "https://a.com"⟩] "https://b.com"
        ((List.replicate 9 "x").map AttemptInput.gen
          ++ AttemptInput.gen "y" :: [])
      = some (.success 201 ("http://" ++ LISTEN_ADDR ++ "/" ++ "y")
          ([⟨"x", "https://a.com"⟩] ++ [⟨"y", "https://b.com"⟩]))
    ∧ shorten [⟨"x", "https://a.com"⟩] "https://b.com"
        ((List.replicate 10 "x").map AttemptInput.gen ++ [])
      = some (.failure 422 [⟨"x", "https://a.com"⟩]) :=
  ⟨(shorten_retry_policy [⟨"x", "https://a.com"⟩] "https://b.com" rfl).1
      (List.replicate 9 "x") "y" [] (by decide) (by decide) rfl,
   (shorten_retry_policy [⟨"x", "https://a.com"⟩] "https://b.com" rfl).2
      (List.replicate 10 "x") [] (by decide) (by decide)⟩

/-- Claim C7 fails as stated: at this concrete input, a non-conflict
storage failure surfaces from the submit handler as 422 and from the
resolve handler as the NotFound response with status 404, and neither 422
nor 404 is a 500-class status. -/
theorem storage_failure_not_5xx :
    shorten [] "https://example.com"
        [.envFailure (.OtherFailure "connection reset")]
      = some (.failure 422 [])
    ∧ redirect [] "abc123" (some (.OtherFailure "connection reset"))
      = .errorResponse ShortenError.NotFound
    ∧ ShortenError.NotFound.status = 404
    ∧ ¬(500 ≤ 422 ∧ 422 ≤ 599) ∧ ¬(500 ≤ 404 ∧ 404 ≤ 599) :=
  ⟨rfl, rfl, rfl, by decide, by decide⟩

/-- Claim C7 (amended): a store or connection failure that is not an
identifier conflict is never retried and surfaces immediately — the submit
handler answers 422 regardless of the attempts that would remain, and the
resolve handler turns it into the NotFound error response, rendered with
status 404, not as a 500-class response. -/
theorem storage_failure_immediate (s : Store) (u rid : String)
    (e : SqlxError) (rest : List AttemptInput)
    (h : ∀ m, ShortenError.fromSqlx e ≠ .PrimaryKeyConflict m) :
    shorten s u (.envFailure e :: rest) = some (.failure 422 s)
    ∧ redirect s rid (some e) = .errorResponse ShortenError.NotFound
    ∧ ShortenError.NotFound.status = 404 := by
  refine ⟨?_, rfl, rfl⟩
  rw [shorten]
  rcases hE : ShortenError.fromSqlx e with m | m | m | m | _
  · simp [shortenLoop, attemptResult, hE, MAX_RETRY_TIMES]
  · simp [shortenLoop, attemptResult, hE, MAX_RETRY_TIMES]
  · exact absurd hE (h m)
  · simp [shortenLoop, attemptResult, hE, MAX_RETRY_TIMES]
  · simp [shortenLoop, attemptResult, hE, MAX_RETRY_TIMES]

/-- Witness for storage_failure_immediate at a concrete transport
failure. -/
theorem storage_failure_immediate_witness :
    shorten [] "https://example.com"
        [AttemptInput.envFailure (.OtherFailure "io error")]
      = some (.failure 422 [])
    ∧ redirect [] "abc123" (some (.OtherFailure "io error"))
      = .errorResponse ShortenError.NotFound
    ∧ ShortenError.NotFound.status = 404 :=
  storage_failure_immediate [] "https://example.com" "abc123"
    (.OtherFailure "io error") []
    (by intro m hm; simp [ShortenError.fromSqlx] at hm)

/-- Claim C5: the error-to-response mapping is total over the five error
kinds and sends each kind to exactly one status and code pair. -/
theorem error_response_mapping : ∀ m : String,
    (ShortenError.BindException m).status = 500
    ∧ (ShortenError.BindException m).code = "BIND_ERROR"
    ∧ (ShortenError.ClientConnectionFailure m).status = 500
    ∧ (ShortenError.ClientConnectionFailure m).code = "CLIENT_CONNECTION_ERROR"
    ∧ (ShortenError.PrimaryKeyConflict m).status = 409
    ∧ (ShortenError.PrimaryKeyConflict m).code = "PRIMARY_KEY_CONFLICT"
    ∧ (ShortenError.DbOperationException m).status = 500
    ∧ (ShortenError.DbOperationException m).code = "DB_OPERATION_ERROR"
    ∧ ShortenError.NotFound.status = 404
    ∧ ShortenError.NotFound.code = "NOT_FOUND" :=
  fun _ => ⟨rfl, rfl, rfl, rfl, rfl, rfl, rfl, rfl, rfl, rfl⟩

/-- Claim C6: classification of a raw storage error happens at the single
From conversion point: an error whose constraint signal names urls_pkey
becomes the identifier conflict, and every other storage error becomes the
generic DbOperationException carrying the error text. -/
theorem storage_error_classification : ∀ e : SqlxError,
    (e.constraintName = some "urls_pkey" →
        ShortenError.fromSqlx e
          = .PrimaryKeyConflict "urls_pkey constraint violation")
    ∧ (e.constraintName ≠ some "urls_pkey" →
        ShortenError.fromSqlx e = .DbOperationException e.display) := by
  intro e
  rcases e with ⟨c, m⟩ | _ | m
  · constructor
    · intro hc
      simp only [SqlxError.constraintName] at hc
      subst hc
      simp [ShortenError.fromSqlx]
    · intro hc
      simp only [SqlxError.constraintName] at hc
      simp [ShortenError.fromSqlx, SqlxError.display, beq_iff_eq, hc]
  · exact ⟨fun hc => by simp [SqlxError.constraintName] at hc, fun _ => rfl⟩
  · exact ⟨fun hc => by simp [SqlxError.constraintName] at hc, fun _ => rfl⟩

/-- Witness for storage_error_classification at one conflicting and one
generic storage error. -/
theorem storage_error_classification_witness :
    ShortenError.fromSqlx (.Database (some "urls_pkey") "duplicate key")
      = .PrimaryKeyConflict "urls_pkey constraint violation"
    ∧ ShortenError.fromSqlx (.OtherFailure "io error")
      = .DbOperationException "io error" :=
  ⟨(storage_error_classification (.Database (some "urls_pkey") "duplicate key")).1 rfl,
   (storage_error_classification (.OtherFailure "io error")).2 (by decide)⟩

/-- Every character of the 62-symbol alphabet is alphanumeric. -/
theorem alphanumChar_isAlphanum : ∀ n : Fin 62,
    (alphanumChar n).isAlphanum = true := by decide

/-- Claim C8: every call of the identifier generator yields a string of
exactly 6 characters, all drawn from the alphanumeric alphabet.  The
generator is a pure function of the randomness sampled for that one call,
so no persisted or in-memory counter links successive calls. -/
theorem generate_shape : ∀ r : Fin 6 → Fin 62,
    (generate r).length = 6
    ∧ ∀ c ∈ (generate r).toList, c.isAlphanum = true := by
  intro r
  constructor
  · simp [generate, String.length_mk, List.length_finRange]
  · intro c hc
    simp only [generate, String.toList] at hc
    rcases List.mem_map.mp hc with ⟨i, _, rfl⟩
    exact alphanumChar_isAlphanum _

/-- Inversion for the handler loop: a success outcome always carries
status 201 and is produced by one successful AppState.shorten attempt
against the store the loop started from. -/
theorem shortenLoop_success_inv (s : Store) (u : String) :
    ∀ (attempts : List AttemptInput) (cnt st : Nat) (body : String)
      (s1 : Store),
      shortenLoop s u cnt attempts = some (.success st body s1) →
      st = 201 ∧ ∃ g rid, AppState.shorten s g u = .ok (rid, s1)
        ∧ body = "http://" ++ LISTEN_ADDR ++ "/" ++ rid := by
  intro attempts
  induction attempts with
  | nil =>
    intro cnt st body s1 h
    by_cases hc : MAX_RETRY_TIMES ≤ cnt <;> simp [shortenLoop, hc] at h
  | cons a rest ih =>
    intro cnt st body s1 h
    by_cases hc : MAX_RETRY_TIMES ≤ cnt
    · simp [shortenLoop, hc] at h
    · simp only [shortenLoop, if_neg hc] at h
      rcases a with g | e2
      · simp only [attemptResult] at h
        rcases hA : AppState.shorten s g u with e | ⟨rid, s2⟩ <;> rw [hA] at h
        · rcases e with m | m | m | m | _
          · simp at h
          · simp at h
          · exact ih (cnt + 1) st body s1 h
          · simp at h
          · simp at h
        · simp only [Option.some.injEq, HandlerResult.success.injEq] at h
          exact ⟨h.1.symm, g, rid, by rw [← h.2.2]; exact hA, h.2.1.symm⟩
      · simp only [attemptResult] at h
        rcases hE : ShortenError.fromSqlx e2 with m | m | m | m | _ <;>
          rw [hE] at h
        · simp at h
        · simp at h
        · exact ih (cnt + 1) st body s1 h
        · simp at h
        · simp at h

/-- Claim C9: a successful submit responds 201 with a body URL composed of
the base address and the stored identifier for the submitted URL, and a
successful resolve responds 308 carrying the stored original URL as the
Location value. -/
theorem response_shapes :
    (∀ (s : Store) (u : String) (attempts : List AttemptInput)
        (st : Nat) (body : String) (s1 : Store),
        shorten s u attempts = some (.success st body s1) →
        st = 201 ∧ ∃ r, r ∈ s1 ∧ r.url = u
          ∧ body = "http://" ++ LISTEN_ADDR ++ "/" ++ r.id)
    ∧ (∀ (s : Store) (rid url : String),
        AppState.get_url s rid = .ok url → isValidHeaderValue url = true →
        redirect s rid none = .response 308 url) := by
  constructor
  · intro s u attempts st body s1 h
    rw [shorten] at h
    obtain ⟨hst, g, rid, hok, hbody⟩ :=
      shortenLoop_success_inv s u attempts 0 st body s1 h
    obtain ⟨r, hr, hrid, hru⟩ := shorten_ok_mem hok
    exact ⟨hst, r, hr, hru, by rw [hbody, hrid]⟩
  · intro s rid url hget hvalid
    simp [redirect, hget, hvalid]

/-- Witness for response_shapes: the concrete 201 body for a fresh insert
and the concrete 308 redirect for its stored record. -/
theorem response_shapes_witness :
    ((201 : Nat) = 201 ∧ ∃ r, r ∈ [(⟨"abc123", "https://e.com"⟩ : UrlRecord)]
      ∧ r.url = "https://e.com"
      ∧ "http://127.0.0.1:9876/abc123"
          = "http://" ++ LISTEN_ADDR ++ "/" ++ r.id)
    ∧ redirect [⟨"abc123", "https://e.com"⟩] "abc123" none
        = .response 308 "https://e.com" :=
  ⟨response_shapes.1 [] "https://e.com" [AttemptInput.gen "abc123"] 201
      "http://127.0.0.1:9876/abc123" [⟨"abc123", "https://e.com"⟩] rfl,
   response_shapes.2 [⟨"abc123", "https://e.com"⟩] "abc123" "https://e.com"
      rfl rfl⟩

/-- Claim C10: when the URL stored for an identifier is not a valid header
value, the resolve handler panics through the unwrap instead of returning
an error response; for every stored URL that is a valid header value the
handler is panic-free and answers the redirect. -/
theorem redirect_panic_condition : ∀ (s : Store) (rid url : String),
    AppState.get_url s rid = .ok url →
    ((isValidHeaderValue url = true →
        redirect s rid none = .response 308 url)
      ∧ (isValidHeaderValue url = false →
        redirect s rid none = .panicked)) := by
  intro s rid url hget
  constructor
  · intro hv
    simp [redirect, hget, hv]
  · intro hv
    simp [redirect, hget, hv]

/-- Witness for redirect_panic_condition: a stored well-formed URL
redirects, and a stored URL containing a newline panics. -/
theorem redirect_panic_condition_witness :
    redirect [⟨"abc123", "https://a.com"⟩] "abc123" none
      = .response 308 "https://a.com"
    ∧ redirect [⟨"zzzzzz", "https://a.com\n"⟩] "zzzzzz" none = .panicked :=
  ⟨(redirect_panic_condition [⟨"abc123", "https://a.com"⟩] "abc123"
      "https://a.com" rfl).1 rfl,
   (redirect_panic_condition [⟨"zzzzzz", "https://a.com\n"⟩] "zzzzzz"
      "https://a.com\n" rfl).2 rfl⟩

end Shorten
